import Mathlib

set_option linter.unusedVariables false

/-!
Shallow embedding of the BU Systems Development Unit membership/events
web application (`src/app.py`), covering the data model (User, Event, RSVP),
the session-based authorization guards, the RSVP-toggle operations (HTML and
JSON variants), event create/edit/delete, registration, the events-listing
JSON endpoint, the privilege-escalation debug endpoint, and the two
best-effort collaborators (audit sink / notification relay).

Conventions used throughout:
- The relational store is a record of three lists of rows; SQLAlchemy
  `filter_by(...).first()` becomes `List.find?`, bulk `delete()` becomes
  `List.filter`, in-place mutation of a fetched row becomes an
  update-first-matching-row function.
- A Flask request handler becomes a function from the store, the session and
  the request inputs to `Except PyErr (outcome)`: an uncaught Python
  exception is `.error` (Flask renders it as an HTTP 500 internal server
  error); a returned response is `.ok`.  A failed handler leaves the store
  unchanged (the transaction is never committed).
- Wall-clock fields (`created_at`, the audit record timestamp) are omitted:
  no claim depends on them.
-/

namespace BUSDU

/-- Naive datetime with second precision, as produced by
`datetime.strptime(value, "%Y-%m-%dT%H:%M")` and `datetime.fromisoformat`
(microseconds are never produced by those inputs and are omitted). -/
structure DateTime where
  year : Nat
  month : Nat
  day : Nat
  hour : Nat
  minute : Nat
  second : Nat
deriving DecidableEq, Repr

/-- Row of the `users` table (`created_at` omitted, see module comment). -/
structure User where
  id : Nat
  first_name : String
  last_name : String
  email : String
  password_hash : String
  role : String
  committee_position : Option String
deriving DecidableEq, Repr

/-- Row of the `events` table. -/
structure Event where
  id : Nat
  title : String
  description : Option String
  location : Option String
  start_time : DateTime
  end_time : DateTime
  created_by : Nat
  image_url : Option String
deriving DecidableEq, Repr

/-- Row of the `rsvps` table; the composite primary key is
(`user_id`, `event_id`) (`created_at` omitted, see module comment). -/
structure RSVP where
  user_id : Nat
  event_id : Nat
  status : String
deriving DecidableEq, Repr

/-- The relational store: the three tables of `src/app.py`. -/
structure Store where
  users : List User
  events : List Event
  rsvps : List RSVP
deriving DecidableEq, Repr

/-- Flask session contents: the two keys `session["user"]` and
`session["role"]` written at login; `none` models an absent key. -/
structure Session where
  user : Option String
  role : Option String
deriving DecidableEq, Repr

/-- Python exceptions that the embedded handlers can raise (uncaught). -/
inductive PyErr where
  | valueError (msg : String)
  | attributeError (msg : String)
deriving DecidableEq, Repr

/-- Truthiness of `session.get("user")`: `None` and the empty string are
falsy in Python. -/
def sessionUserTruthy (sess : Session) : Bool :=
  match sess.user with
  | none => false
  | some e => e != ""

/-- Outcome of a guard decorator: redirect to the login page, HTTP 403, or
fall through to the wrapped view. -/
inductive GuardDecision where
  | redirectLogin
  | forbidden
  | allow
deriving DecidableEq, Repr

/-- Guard `login_required` (app.py:108-114).  The store is passed to every guard
to make explicit that the decision reads the session only: the body never
consults it. -/
def login_required (sess : Session) (store : Store) : GuardDecision :=
  if !(sessionUserTruthy sess) then .redirectLogin else .allow

/-- Guard `committee_or_admin_required` (app.py:116-124): redirect when not logged
in, 403 when `session.get("role") not in ["committee", "admin"]`.  The store
argument is never read (the role is the session snapshot from login time). -/
def committee_or_admin_required (sess : Session) (store : Store) : GuardDecision :=
  if !(sessionUserTruthy sess) then .redirectLogin
  else if !(sess.role == some "committee" || sess.role == some "admin") then .forbidden
  else .allow

/-- Guard `admin_required` (app.py:126-134): redirect when not logged in, 403 when
`session.get("role") != "admin"`.  The store argument is never read. -/
def admin_required (sess : Session) (store : Store) : GuardDecision :=
  if !(sessionUserTruthy sess) then .redirectLogin
  else if sess.role != some "admin" then .forbidden
  else .allow

/-- Helper `get_current_user` (app.py:102-106): `None` when the session email is
absent or falsy, else `User.query.filter_by(email=email).first()`. -/
def get_current_user (sess : Session) (store : Store) : Option User :=
  match sess.user with
  | none => none
  | some email =>
    if email = "" then none
    else store.users.find? (fun u => u.email == email)

/-- Lookup `Event.query.get_or_404(event_id)`: primary-key lookup. -/
def findEvent (store : Store) (event_id : Nat) : Option Event :=
  store.events.find? (fun e => e.id == event_id)

/-- Predicate of `RSVP.query.filter_by(user_id=..., event_id=...)`. -/
def pairMatch (uid eid : Nat) (r : RSVP) : Bool :=
  r.user_id == uid && r.event_id == eid

/-- Lookup `RSVP.query.filter_by(user_id=..., event_id=...).first()`. -/
def findRSVP (rs : List RSVP) (uid eid : Nat) : Option RSVP :=
  rs.find? (pairMatch uid eid)

/-- In-place mutation `rsvp.status = ...` of the row returned by `.first()`:
updates the first row matching the pair, leaves the rest untouched. -/
def setRSVPStatusFirst : List RSVP → Nat → Nat → String → List RSVP
  | [], _, _, _ => []
  | r :: rs, uid, eid, st =>
    if pairMatch uid eid r then { r with status := st } :: rs
    else r :: setRSVPStatusFirst rs uid eid st

/-- The find-existing-or-create-new RSVP store update shared verbatim by
`toggle_rsvp` (app.py:486-497) and `api_toggle_rsvp` (app.py:562-574):
if a row for the pair exists its status is overwritten in place, otherwise a
fresh row is inserted with the chosen status. -/
def rsvp_upsert (store : Store) (uid eid : Nat) (is_going : Bool) : Store :=
  let st := if is_going then "going" else "cancelled"
  match findRSVP store.rsvps uid eid with
  | some _ => { store with rsvps := setRSVPStatusFirst store.rsvps uid eid st }
  | none => { store with rsvps := store.rsvps ++ [⟨uid, eid, st⟩] }

/-- Scalar JSON/Python value, as found in a parsed request body. -/
inductive PyVal where
  | vNone
  | vBool (b : Bool)
  | vInt (n : Int)
  | vStr (s : String)
deriving DecidableEq, Repr

/-- Python `bool(...)` truthiness on scalar values. -/
def pyTruthy : PyVal → Bool
  | .vNone => false
  | .vBool b => b
  | .vInt n => n != 0
  | .vStr s => s != ""

/-- Python `dict.get(key, dflt)`. -/
def dictGet (m : List (String × PyVal)) (k : String) (dflt : PyVal) : PyVal :=
  match m.find? (fun p => p.1 == k) with
  | some p => p.2
  | none => dflt

/-- The HTML variant's intent bit (app.py:483-484):
`is_going = (request.form.get("action") == "going")`. -/
def formIsGoing (action : Option String) : Bool :=
  action == some "going"

/-- The JSON variant's intent bit (app.py:559-560):
`body = request.get_json(silent=True) or {}` (a body that is absent or not
valid JSON parses to `None`, replaced by the empty dict), then
`is_going = bool(body.get("going", False))`. -/
def jsonIsGoing (body : Option (List (String × PyVal))) : Bool :=
  let m := match body with
    | none => []
    | some m => m
  pyTruthy (dictGet m "going" (.vBool false))

/-- Arguments of one `call_rsvp_cloud_function(user, event, status)`
invocation: the JSON payload it posts (app.py:194-198). -/
structure RelayCall where
  user_email : String
  event_id : Nat
  new_status : String
deriving DecidableEq, Repr

/-- Contents of one `log_action("RSVP_UPDATED", user=..., extra=...)`
invocation as made by the HTML toggle handler (app.py:499-507); the
timestamp field is omitted (wall clock). -/
structure AuditWrite where
  action : String
  user_email : String
  user_id : Nat
  role : String
  event_id : Nat
  event_title : String
  new_status : String
deriving DecidableEq, Repr

/-- HTTP response of an RSVP-toggle request. -/
inductive RsvpResponse where
  | redirectLogin
  | notFound
  | redirectEventDetail (event_id : Nat)
  | json (message : String) (event_id : Nat) (status : String) (code : Nat)
deriving DecidableEq, Repr

/-- Observable outcome of one RSVP-toggle request: the store after commit,
the notification-relay invocation made (if any), the audit-sink invocation
made (if any), and the HTTP response. -/
structure ToggleOutcome where
  store : Store
  relay : Option RelayCall
  audit : Option AuditWrite
  response : RsvpResponse
deriving DecidableEq, Repr

/-- Handler `toggle_rsvp` (app.py:477-509), the HTML variant: `login_required`
guard, resolve current user, `get_or_404` the event, derive `is_going` from
the form `action` field, upsert the RSVP row, commit, invoke the
notification relay and the audit sink, redirect to the event-detail page.
When the session email matches no user row, `user.id` raises
`AttributeError` (after the 404 check, which the source runs first). -/
def toggle_rsvp (store : Store) (sess : Session) (event_id : Nat)
    (form_action : Option String) : Except PyErr ToggleOutcome :=
  if !(sessionUserTruthy sess) then .ok ⟨store, none, none, .redirectLogin⟩
  else
    match findEvent store event_id with
    | none => .ok ⟨store, none, none, .notFound⟩
    | some event =>
      match get_current_user sess store with
      | none => .error (.attributeError "NoneType object has no attribute id")
      | some user =>
        let is_going := formIsGoing form_action
        let st := if is_going then "going" else "cancelled"
        .ok ⟨rsvp_upsert store user.id event.id is_going,
             some ⟨user.email, event.id, st⟩,
             some ⟨"RSVP_UPDATED", user.email, user.id, user.role, event.id, event.title, st⟩,
             .redirectEventDetail event.id⟩

/-- Handler `api_toggle_rsvp` (app.py:553-581), the JSON variant: same guard, user
resolution, event lookup and RSVP upsert, with `is_going` derived from the
JSON body, the same notification-relay invocation, no audit-sink invocation,
and a JSON 200 response. -/
def api_toggle_rsvp (store : Store) (sess : Session) (event_id : Nat)
    (body : Option (List (String × PyVal))) : Except PyErr ToggleOutcome :=
  if !(sessionUserTruthy sess) then .ok ⟨store, none, none, .redirectLogin⟩
  else
    match findEvent store event_id with
    | none => .ok ⟨store, none, none, .notFound⟩
    | some event =>
      match get_current_user sess store with
      | none => .error (.attributeError "NoneType object has no attribute id")
      | some user =>
        let is_going := jsonIsGoing body
        let st := if is_going then "going" else "cancelled"
        .ok ⟨rsvp_upsert store user.id event.id is_going,
             some ⟨user.email, event.id, st⟩,
             none,
             .json "RSVP updated" event.id st 200⟩

/-! Timestamp text formats.  `parse_dt_local` (app.py:161-162) is
`datetime.strptime(value, "%Y-%m-%dT%H:%M")`, modelled with CPython's
field semantics: a four-digit year, one- or two-digit month/day/hour/minute
exactly as the `_strptime` regular expressions accept them (so non-padded
inputs such as `2026-1-2T9:5` parse), a case-insensitive `T`, no
unconsumed trailing text, and real calendar validation of the day of
month (leap years included).  `admin_event_edit` uses
`datetime.fromisoformat`, modelled for extended-format dates
`YYYY-MM-DD`, optionally followed by any single separator character and a
time `HH`, `HH:MM`, `HH:MM:SS` or `HH:MM:SS` with a fractional-second
suffix of one to six digits (accepted and validated, but not retained:
the model datetime has second precision).  Outside the model on both
parsers: non-ASCII digits; for `fromisoformat` also basic-format
(`YYYYMMDD`), week/ordinal dates and timezone suffixes — inputs the
claims never range over.  `api_events` emits `datetime.isoformat()`,
whose output here is always `YYYY-MM-DDTHH:MM:SS`. -/

/-- Digit character of `n` for `n ≤ 9` (callers always pass `_ % 10`). -/
def digitChar (n : Nat) : Char :=
  ['0', '1', '2', '3', '4', '5', '6', '7', '8', '9'].getD n '!'

/-- ASCII digit test (codes 48 through 57). -/
def isAsciiDigit (c : Char) : Bool :=
  48 ≤ c.toNat && c.toNat ≤ 57

/-- Numeric value of an ASCII digit character. -/
def digitVal (c : Char) : Option Nat :=
  if isAsciiDigit c then some (c.toNat - 48) else none

/-- Two-digit zero-padded rendering, as in `%02d`. -/
def pad2Chars (n : Nat) : List Char :=
  [digitChar (n / 10 % 10), digitChar (n % 10)]

/-- Four-digit zero-padded rendering, as in `%04d`. -/
def pad4Chars (n : Nat) : List Char :=
  [digitChar (n / 1000 % 10), digitChar (n / 100 % 10), digitChar (n / 10 % 10),
   digitChar (n % 10)]

/-- Read a two-digit number. -/
def readNat2 (a b : Char) : Option Nat :=
  (digitVal a).bind fun x => (digitVal b).bind fun y => some (10 * x + y)

/-- Read a four-digit number. -/
def readNat4 (a b c d : Char) : Option Nat :=
  (digitVal a).bind fun x => (digitVal b).bind fun y => (digitVal c).bind fun z =>
    (digitVal d).bind fun w => some (1000 * x + 100 * y + 10 * z + w)

/-- Length of a month in the proleptic Gregorian calendar used by Python's
datetime, with its leap-year rule. -/
def daysInMonth (y m : Nat) : Nat :=
  if m = 2 then (if y % 4 = 0 ∧ (y % 100 ≠ 0 ∨ y % 400 = 0) then 29 else 28)
  else if m = 4 ∨ m = 6 ∨ m = 9 ∨ m = 11 then 30
  else 31

/-- Range validation performed by the Python datetime constructor: a
datetime with an out-of-range field (year outside 1..9999, month outside
1..12, day outside the month's real length, hour/minute/second out of
range) raises `ValueError`, modelled as `none`. -/
def mkValidDT (y mo d h mi s : Nat) : Option DateTime :=
  if 1 ≤ y ∧ y ≤ 9999 ∧ 1 ≤ mo ∧ mo ≤ 12 ∧ 1 ≤ d ∧ d ≤ daysInMonth y mo ∧
      h ≤ 23 ∧ mi ≤ 59 ∧ s ≤ 59
  then some ⟨y, mo, d, h, mi, s⟩
  else none

/-- Fractional-second suffix after `HH:MM:SS`: nothing, or `.`/`,` followed
by one to six digits.  The sub-second value is validated but not retained
(the model datetime has second precision). -/
def fracOk : List Char → Bool
  | [] => true
  | f :: fs =>
    ((f == '.') || (f == ',')) && !fs.isEmpty && fs.length ≤ 6 && fs.all isAsciiDigit

/-- Time-of-day part accepted by `fromisoformat` in extended format:
`HH`, `HH:MM`, or `HH:MM:SS` with an optional fractional-second suffix
(field ranges are checked by the datetime constructor, `mkValidDT`). -/
def parseTimeChars : List Char → Option (Nat × Nat × Nat)
  | [h1, h2] => (readNat2 h1 h2).bind fun hh => some (hh, 0, 0)
  | [h1, h2, c1, m1, m2] =>
    if c1 = ':' then
      (readNat2 h1 h2).bind fun hh => (readNat2 m1 m2).bind fun mm => some (hh, mm, 0)
    else none
  | h1 :: h2 :: c1 :: m1 :: m2 :: c2 :: s1 :: s2 :: rest =>
    if c1 = ':' ∧ c2 = ':' ∧ fracOk rest = true then
      (readNat2 h1 h2).bind fun hh => (readNat2 m1 m2).bind fun mm =>
        (readNat2 s1 s2).bind fun ss => some (hh, mm, ss)
    else none
  | _ => none

/-- Everything after the `YYYY-MM-DD` date in a `fromisoformat` input:
nothing (midnight), or one arbitrary separator character — CPython skips
the separator without inspecting it — followed by a time of day (an empty
time part after the separator also means midnight, as in CPython). -/
def timePart : List Char → Nat → Nat → Nat → Option DateTime
  | [], y, mo, dd => mkValidDT y mo dd 0 0 0
  | _sep :: timeChars, y, mo, dd =>
    if timeChars.isEmpty then mkValidDT y mo dd 0 0 0
    else (parseTimeChars timeChars).bind fun t => mkValidDT y mo dd t.1 t.2.1 t.2.2

/-- Character-level core of `fromisoformat`: an extended-format date
`YYYY-MM-DD` with exactly two-digit month and day, then `timePart`. -/
def fromisoChars : List Char → Option DateTime
  | y1 :: y2 :: y3 :: y4 :: c1 :: o1 :: o2 :: c2 :: d1 :: d2 :: rest =>
    (readNat4 y1 y2 y3 y4).bind fun y =>
      (readNat2 o1 o2).bind fun mo =>
        (readNat2 d1 d2).bind fun dd =>
          if c1 = '-' ∧ c2 = '-' then timePart rest y mo dd else none
  | _ => none

/-- Parser `datetime.fromisoformat` (see the section comment above for the
modelled grammar); a text it rejects raises `ValueError`, modelled `none`. -/
def fromisoformat (s : String) : Option DateTime :=
  fromisoChars s.toList

/-- Expect one character satisfying `ok` and return the remaining input. -/
def expectChar (ok : Char → Bool) : List Char → Option (List Char)
  | c :: rest => if ok c then some rest else none
  | [] => none

/-- Numeric field of one or two digits as matched by a CPython `_strptime`
directive followed by a non-digit literal (or end of input): when two
digits follow, both belong to the field and the value must lie in
`twoLo..twoHi` (the two-digit regex alternatives); a single digit must lie
in `oneLo..oneHi` (the one-digit alternative — `[1-9]` for month and day,
any digit for hour and minute). -/
def read2Field : List Char → Nat → Nat → Nat → Nat → Option (Nat × List Char)
  | c1 :: c2 :: rest, oneLo, oneHi, twoLo, twoHi =>
    match digitVal c1, digitVal c2 with
    | some a, some b =>
      if twoLo ≤ 10 * a + b ∧ 10 * a + b ≤ twoHi then some (10 * a + b, rest) else none
    | some a, none =>
      if oneLo ≤ a ∧ a ≤ oneHi then some (a, c2 :: rest) else none
    | none, _ => none
  | [c1], oneLo, oneHi, _, _ =>
    match digitVal c1 with
    | some a => if oneLo ≤ a ∧ a ≤ oneHi then some (a, []) else none
    | none => none
  | [], _, _, _, _ => none

/-- Parser `parse_dt_local` (app.py:161-162):
`datetime.strptime(value, "%Y-%m-%dT%H:%M")` with CPython's directive
semantics — `%Y` is exactly four digits, `%m`/`%d` are `1[0-2]|0[1-9]|[1-9]`
and `3[01]|[12]\d|0[1-9]|[1-9]`, `%H`/`%M` are `2[0-3]|[0-1]\d|\d` and
`[0-5]\d|\d`, the literal `T` is matched case-insensitively, trailing
unconverted text is an error, and the parsed fields must form a real
calendar date.  A rejected text raises `ValueError`, modelled as `none`. -/
def parse_dt_local (value : String) : Option DateTime :=
  match value.toList with
  | y1 :: y2 :: y3 :: y4 :: rest0 => do
    let y ← readNat4 y1 y2 y3 y4
    let rest1 ← expectChar (fun c => c == '-') rest0
    let (mo, rest2) ← read2Field rest1 1 9 1 12
    let rest3 ← expectChar (fun c => c == '-') rest2
    let (dd, rest4) ← read2Field rest3 1 9 1 31
    let rest5 ← expectChar (fun c => c == 'T' || c == 't') rest4
    let (hh, rest6) ← read2Field rest5 0 9 0 23
    let rest7 ← expectChar (fun c => c == ':') rest6
    let (mi, rest8) ← read2Field rest7 0 9 0 59
    match rest8 with
    | [] => mkValidDT y mo dd hh mi 0
    | _ => none
  | _ => none

/-- Rendering `datetime.isoformat()` for a microsecond-free datetime:
`YYYY-MM-DDTHH:MM:SS`. -/
def isoformat (d : DateTime) : String :=
  String.mk (pad4Chars d.year ++ ['-'] ++ pad2Chars d.month ++ ['-'] ++ pad2Chars d.day
    ++ ['T'] ++ pad2Chars d.hour ++ [':'] ++ pad2Chars d.minute ++ [':'] ++ pad2Chars d.second)

/-- Field ranges under which a datetime is representable: exactly the
bounds the Python datetime constructor enforces, including the real
calendar length of the month. -/
def validDT (d : DateTime) : Prop :=
  1 ≤ d.year ∧ d.year ≤ 9999 ∧ 1 ≤ d.month ∧ d.month ≤ 12 ∧ 1 ≤ d.day ∧
  d.day ≤ daysInMonth d.year d.month ∧ d.hour ≤ 23 ∧ d.minute ≤ 59 ∧ d.second ≤ 59

instance (d : DateTime) : Decidable (validDT d) := by
  unfold validDT
  infer_instance

/-- Python whitespace recognised by `str.strip()`. -/
def pyIsSpace (c : Char) : Bool :=
  c = ' ' || c = '\t' || c = '\n' || c = '\r' || c = '\x0b' || c = '\x0c'

/-- Python `str.strip()`: remove leading and trailing whitespace. -/
def pyStrip (s : String) : String :=
  String.mk (((s.toList.dropWhile pyIsSpace).reverse.dropWhile pyIsSpace).reverse)

/-- Python `str.lower()` (ASCII letters). -/
def pyLower (s : String) : String :=
  String.mk (s.toList.map Char.toLower)

/-- Response of the `register` POST handler (app.py:309-332). -/
inductive RegisterResponse where
  | userAlreadyExists
  | redirectLogin
deriving DecidableEq, Repr

/-- Handler `register` (app.py:309-332), POST branch: strip the names, normalize the
email (`strip().lower()`), reject with a "User already exists" page when a
user row with that email exists, otherwise insert a new row with the hashed
password and role `"member"` and redirect to login.  `genHash` abstracts
`generate_password_hash`; `next_id` models the autoincrement primary key. -/
def register (store : Store) (first_name last_name email password : String)
    (genHash : String → String) (next_id : Nat) : RegisterResponse × Store :=
  let fn := pyStrip first_name
  let ln := pyStrip last_name
  let em := pyLower (pyStrip email)
  match store.users.find? (fun u => u.email == em) with
  | some _ => (.userAlreadyExists, store)
  | none =>
    (.redirectLogin,
     { store with users := store.users ++ [⟨next_id, fn, ln, em, genHash password, "member", none⟩] })

/-- In-place mutation `user.role = "admin"` of the row returned by
`filter_by(email=...).first()`: update the first row with that email. -/
def setRoleFirst : List User → String → String → List User
  | [], _, _ => []
  | u :: us, email, role =>
    if u.email == email then { u with role := role } :: us
    else u :: setRoleFirst us email role

/-- Response of the `make_me_admin` handler. -/
inductive MakeMeAdminResponse where
  | redirectLogin
  | body (text : String)
deriving DecidableEq, Repr

/-- Handler `make_me_admin` (app.py:248-256): guarded only by `login_required`;
sets the current user's stored role to `"admin"`, commits, sets the session
role to `"admin"`, and returns "You are now admin.".  When the session email
matches no row, `user.role = ...` raises `AttributeError`. -/
def make_me_admin (store : Store) (sess : Session) :
    Except PyErr (Store × Session × MakeMeAdminResponse) :=
  if !(sessionUserTruthy sess) then .ok (store, sess, .redirectLogin)
  else
    match get_current_user sess store with
    | none => .error (.attributeError "NoneType object has no attribute role")
    | some user =>
      .ok ({ store with users := setRoleFirst store.users user.email "admin" },
           { sess with role := some "admin" },
           .body "You are now admin.")

/-- First statement of `admin_event_delete` (app.py:466):
`RSVP.query.filter_by(event_id=event.id).delete()`. -/
def deleteRSVPsForEvent (store : Store) (eid : Nat) : Store :=
  { store with rsvps := store.rsvps.filter (fun r => !(r.event_id == eid)) }

/-- Second statement of `admin_event_delete` (app.py:467):
`db.session.delete(event)` — erase the event row by primary key. -/
def deleteEventRow (store : Store) (eid : Nat) : Store :=
  { store with events := store.events.filter (fun e => !(e.id == eid)) }

/-- Handler `admin_event_delete` (app.py:461-470), after its guard: `get_or_404` the
event (`none` models the 404), then delete the dependent RSVP rows and the
event row as two sequential statements inside one commit. -/
def admin_event_delete (store : Store) (event_id : Nat) : Option Store :=
  match findEvent store event_id with
  | none => none
  | some event => some (deleteEventRow (deleteRSVPsForEvent store event.id) event.id)

/-- Chronological key of a datetime: lexicographic field order, which for
in-range fields coincides with the store's ordering of `DateTime` columns. -/
def dtKey (d : DateTime) : Nat :=
  ((((d.year * 13 + d.month) * 32 + d.day) * 24 + d.hour) * 60 + d.minute) * 60 + d.second

/-- Boolean chronological comparison used for `ORDER BY start_time ASC`. -/
def dtLe (a b : DateTime) : Bool :=
  decide (dtKey a ≤ dtKey b)

/-- Query `Event.query.order_by(Event.start_time.asc()).all()`. -/
def order_by_start_time (events : List Event) : List Event :=
  events.mergeSort (fun a b => dtLe a.start_time b.start_time)

/-- One entry of the `"events"` array (app.py:541-548): exactly the fields
id, title, description, location, start_time, end_time, the timestamps
rendered with `isoformat()`. -/
structure ApiEventEntry where
  id : Nat
  title : String
  description : Option String
  location : Option String
  start_time : String
  end_time : String
deriving DecidableEq, Repr

/-- The JSON object `{"events": [...]}` returned by `GET /api/events`. -/
structure ApiEventsResponse where
  events : List ApiEventEntry
deriving DecidableEq, Repr

/-- Rendering of one event row as its JSON entry (app.py:541-548). -/
def apiEventEntryOf (e : Event) : ApiEventEntry :=
  ⟨e.id, e.title, e.description, e.location, isoformat e.start_time, isoformat e.end_time⟩

/-- Handler `api_events` (app.py:536-551): all events ordered by start time
ascending, each rendered as its six-field JSON entry. -/
def api_events (store : Store) : ApiEventsResponse :=
  ⟨(order_by_start_time store.events).map apiEventEntryOf⟩

/-! The two best-effort collaborators.  Each takes the external call itself
as a function argument returning `Except SinkErr Unit`, so the theorems can
quantify over every behaviour of the collaborator; the embedded body mirrors
the source's `try/except` structure: a collaborator failure is converted
into an `.ok` outcome that merely records the console print. -/

/-- Failure modes of an external collaborator call. -/
inductive SinkErr where
  | permissionDenied (msg : String)
  | connectivity (msg : String)
  | timeout (msg : String)
  | other (msg : String)
deriving DecidableEq, Repr

/-- The document written to the `activity_logs` collection (app.py:173-181):
action name, optional actor (email, id, role), extra key/value fields; the
timestamp is omitted (wall clock). -/
structure AuditData where
  action : String
  user : Option (String × Nat × String)
  extra : List (String × String)
deriving DecidableEq, Repr

/-- What `log_action` did, as observable from its caller and the console. -/
inductive LogOutcome where
  | skippedNoDb
  | logged (data : AuditData)
  | printedPermissionDenied (msg : String)
  | printedFailure (msg : String)
deriving DecidableEq, Repr

/-- Console message of a caught collaborator failure. -/
def sinkErrMsg : SinkErr → String
  | .permissionDenied m => m
  | .connectivity m => m
  | .timeout m => m
  | .other m => m

/-- Collaborator wrapper `log_action` (app.py:169-188): return immediately when `firestore_db` is
`None`; build the data document; attempt the Firestore write inside
`try/except PermissionDenied/except Exception` — both handlers only print,
so no collaborator failure escapes.  `firestoreAdd` is the collaborator:
`none` models `firestore_db is None`, `some add` the `.collection(...).add`
call with an arbitrary outcome. -/
def log_action (firestoreAdd : Option (AuditData → Except SinkErr Unit))
    (action : String) (user : Option User) (extra : List (String × String)) :
    Except SinkErr LogOutcome :=
  match firestoreAdd with
  | none => .ok .skippedNoDb
  | some add =>
    let data : AuditData := ⟨action, user.map (fun u => (u.email, u.id, u.role)), extra⟩
    match add data with
    | .ok _ => .ok (.logged data)
    | .error (.permissionDenied m) => .ok (.printedPermissionDenied m)
    | .error e => .ok (.printedFailure (sinkErrMsg e))

/-- What `call_rsvp_cloud_function` did. -/
inductive RelayOutcome where
  | skippedNoUrl
  | posted (url : String) (payload : RelayCall)
  | printedFailure (msg : String)
deriving DecidableEq, Repr

/-- Collaborator wrapper `call_rsvp_cloud_function` (app.py:190-203): return immediately when
`cloud_function_url` is unset (or empty, which is falsy); build the payload;
attempt the POST inside `try/except Exception` — the handler only prints, so
no failure (timeout, connectivity, anything) escapes.  `post` is the
collaborator with an arbitrary outcome. -/
def call_rsvp_cloud_function (cloud_function_url : Option String)
    (post : String → RelayCall → Except SinkErr Unit)
    (user : User) (event : Event) (status : String) : Except SinkErr RelayOutcome :=
  match cloud_function_url with
  | none => .ok .skippedNoUrl
  | some url =>
    if url = "" then .ok .skippedNoUrl
    else
      let payload : RelayCall := ⟨user.email, event.id, status⟩
      match post url payload with
      | .ok _ => .ok (.posted url payload)
      | .error e => .ok (.printedFailure (sinkErrMsg e))

/-! Derived notions used to state the invariants, plus concrete example
data used by witnesses and counterexamples. -/

/-- Number of RSVP rows for one (user, event) pair. -/
def pairCount (rs : List RSVP) (uid eid : Nat) : Nat :=
  (rs.filter (pairMatch uid eid)).length

/-- The store invariant enforced by the composite primary key of `rsvps`:
at most one row per (user, event) pair. -/
def atMostOnePerPair (rs : List RSVP) : Prop :=
  ∀ uid eid, pairCount rs uid eid ≤ 1

/-- A sequence of RSVP-toggle store updates: each element is
(user id, event id, is_going). -/
def applyToggles (store : Store) (ops : List (Nat × Nat × Bool)) : Store :=
  ops.foldl (fun s op => rsvp_upsert s op.1 op.2.1 op.2.2) store

/-- Example member user. -/
def exUser : User := ⟨1, "A", "User", "a@test.com", "hash", "member", none⟩

/-- Example event created by `exUser`. -/
def exEvent : Event :=
  ⟨1, "Club Meetup", some "Desc", some "Room", ⟨2026, 1, 2, 18, 0, 0⟩, ⟨2026, 1, 2, 20, 0, 0⟩, 1, none⟩

/-- A second example event with an earlier start time and a larger id. -/
def exEvent2 : Event :=
  ⟨2, "Earlier Social", none, none, ⟨2025, 12, 31, 9, 30, 0⟩, ⟨2025, 12, 31, 11, 0, 0⟩, 1, none⟩

/-- Example store with no RSVP rows. -/
def exStore : Store := ⟨[exUser], [exEvent], []⟩

/-- Example store with one RSVP row for (`exUser`, `exEvent`). -/
def exStoreR : Store := ⟨[exUser], [exEvent], [⟨1, 1, "going"⟩]⟩

/-- Example store with both events, unsorted by start time. -/
def exStore7 : Store := ⟨[exUser], [exEvent, exEvent2], []⟩

/-- Example session of `exUser` as logged in with role "member". -/
def exSess : Session := ⟨some "a@test.com", some "member"⟩

theorem get_current_user_eq {sess : Session} {store : Store} {u : User}
    (h : get_current_user sess store = some u) :
    ∃ e, sess.user = some e ∧ e ≠ "" ∧
      store.users.find? (fun x => x.email == e) = some u ∧ u.email = e := by
  unfold get_current_user at h
  cases hs : sess.user with
  | none => rw [hs] at h; simp at h
  | some e =>
    rw [hs] at h
    by_cases he : e = ""
    · simp [he] at h
    · simp only [he, if_false] at h
      refine ⟨e, rfl, he, h, ?_⟩
      have := List.find?_some h
      simpa using this

theorem sessionUserTruthy_of_get_current_user {sess : Session} {store : Store} {u : User}
    (h : get_current_user sess store = some u) : sessionUserTruthy sess = true := by
  obtain ⟨e, hse, hne, _, _⟩ := get_current_user_eq h
  unfold sessionUserTruthy
  rw [hse]
  simpa [bne_iff_ne] using hne

theorem setRoleFirst_mem (l : List User) (e r : String) (u : User)
    (h : l.find? (fun x => x.email == e) = some u) :
    { u with role := r } ∈ setRoleFirst l e r := by
  induction l with
  | nil => simp at h
  | cons x xs ih =>
    by_cases hx : (x.email == e) = true
    · simp only [List.find?_cons, hx] at h
      injection h with h
      subst h
      unfold setRoleFirst
      rw [if_pos hx]
      exact List.mem_cons_self _ _
    · have hx2 : (x.email == e) = false := by simpa using hx
      simp only [List.find?_cons, hx2] at h
      unfold setRoleFirst
      rw [if_neg (by simp [hx2])]
      exact List.mem_cons_of_mem _ (ih h)

/-! Claim theorems. -/

/-- C4: the committee-or-admin guard and the admin guard decide from the
session contents alone — two runs with equal sessions and arbitrarily
different stores (in particular, a different stored role for the session's
user) produce the same outcome, so a role change in the store does not alter
a logged-in user's effective privilege until they log in again. -/
theorem guards_read_session_only (sess : Session) (s1 s2 : Store) :
    committee_or_admin_required sess s1 = committee_or_admin_required sess s2 ∧
    admin_required sess s1 = admin_required sess s2 :=
  ⟨rfl, rfl⟩

/-- C6: `log_action` and `call_rsvp_cloud_function` catch every failure of
their external collaborator (permission denial, connectivity error, timeout,
missing configuration) inside the function: for every collaborator behaviour
they return normally, never raising past their caller. -/
theorem side_channel_failures_never_raise
    (firestoreAdd : Option (AuditData → Except SinkErr Unit))
    (action : String) (user : Option User) (extra : List (String × String))
    (cloud_function_url : Option String) (post : String → RelayCall → Except SinkErr Unit)
    (u : User) (ev : Event) (status : String) :
    (log_action firestoreAdd action user extra).isOk = true ∧
    (call_rsvp_cloud_function cloud_function_url post u ev status).isOk = true := by
  constructor
  · unfold log_action
    cases firestoreAdd with
    | none => rfl
    | some add =>
      cases h : add ⟨action, user.map (fun x => (x.email, x.id, x.role)), extra⟩ with
      | ok v => simp [h, Except.isOk, Except.toBool]
      | error e => cases e <;> simp [h, Except.isOk, Except.toBool]
  · unfold call_rsvp_cloud_function
    cases cloud_function_url with
    | none => rfl
    | some url =>
      by_cases hu : url = ""
      · simp [hu, Except.isOk, Except.toBool]
      · cases h : post url ⟨u.email, ev.id, status⟩ with
        | ok v => simp [hu, h, Except.isOk, Except.toBool]
        | error e => simp [hu, h, Except.isOk, Except.toBool]

/-- C5: for every existing event, `admin_event_delete` deletes the dependent
RSVP rows and then the event row (two sequential statements in one commit);
afterwards no RSVP row references the deleted event and, given no orphans
beforehand, no RSVP row references any nonexistent event. -/
theorem admin_event_delete_no_orphans (store : Store) (eid : Nat) (ev : Event)
    (hev : findEvent store eid = some ev)
    (hno : ∀ r ∈ store.rsvps, ∃ e ∈ store.events, e.id = r.event_id) :
    ∃ store2,
      admin_event_delete store eid = some store2 ∧
      store2 = deleteEventRow (deleteRSVPsForEvent store eid) eid ∧
      (∀ r ∈ store2.rsvps, r.event_id ≠ eid) ∧
      (∀ e ∈ store2.events, e.id ≠ eid) ∧
      (∀ r ∈ store2.rsvps, ∃ e ∈ store2.events, e.id = r.event_id) := by
  have hid : ev.id = eid := by
    have := List.find?_some hev
    simpa using this
  refine ⟨deleteEventRow (deleteRSVPsForEvent store eid) eid, ?_, rfl, ?_, ?_, ?_⟩
  · simp only [admin_event_delete, hev, hid]
  · intro r hr
    simp only [deleteEventRow, deleteRSVPsForEvent, List.mem_filter] at hr
    simpa using hr.2
  · intro e he
    simp only [deleteEventRow, deleteRSVPsForEvent, List.mem_filter] at he
    simpa using he.2
  · intro r hr
    simp only [deleteEventRow, deleteRSVPsForEvent, List.mem_filter] at hr
    obtain ⟨e, hmem, heq⟩ := hno r hr.1
    refine ⟨e, ?_, heq⟩
    simp only [deleteEventRow, deleteRSVPsForEvent, List.mem_filter]
    refine ⟨hmem, ?_⟩
    have : r.event_id ≠ eid := by simpa using hr.2
    simp [heq, this]

/-- C10: `make_me_admin` is guarded only by the authenticated predicate —
for every session resolving to a stored user, whatever that user's current
role and the session role, it succeeds, sets the stored role of that user's
row and the session role to "admin", and returns "You are now admin.". -/
theorem make_me_admin_ignores_privilege (store : Store) (sess : Session) (u : User)
    (hu : get_current_user sess store = some u) :
    make_me_admin store sess
      = .ok ({ store with users := setRoleFirst store.users u.email "admin" },
             { sess with role := some "admin" },
             .body "You are now admin.") ∧
    { u with role := "admin" } ∈ setRoleFirst store.users u.email "admin" := by
  have ht := sessionUserTruthy_of_get_current_user hu
  obtain ⟨e, hse, hne, hfind, hemail⟩ := get_current_user_eq hu
  constructor
  · unfold make_me_admin
    rw [ht]
    simp [hu]
  · rw [← hemail] at hfind
    exact setRoleFirst_mem _ _ _ _ hfind

theorem make_me_admin_ignores_privilege_witness :
    make_me_admin exStore exSess
      = .ok ({ exStore with users := setRoleFirst exStore.users exUser.email "admin" },
             { exSess with role := some "admin" },
             .body "You are now admin.") ∧
    { exUser with role := "admin" } ∈ setRoleFirst exStore.users exUser.email "admin" :=
  make_me_admin_ignores_privilege exStore exSess exUser (by decide)

theorem admin_event_delete_no_orphans_witness :
    ∃ store2,
      admin_event_delete exStoreR 1 = some store2 ∧
      store2 = deleteEventRow (deleteRSVPsForEvent exStoreR 1) 1 ∧
      (∀ r ∈ store2.rsvps, r.event_id ≠ 1) ∧
      (∀ e ∈ store2.events, e.id ≠ 1) ∧
      (∀ r ∈ store2.rsvps, ∃ e ∈ store2.events, e.id = r.event_id) :=
  admin_event_delete_no_orphans exStoreR 1 exEvent (by decide) (by decide)

/-! RSVP pair-count development, leading to the no-duplicate-rows
invariant of the toggle operations. -/

theorem pairMatch_set_status (u e : Nat) (st : String) (r : RSVP) :
    pairMatch u e { r with status := st } = pairMatch u e r := rfl

theorem pairCount_setRSVPStatusFirst (rs : List RSVP) (uid eid : Nat) (st : String)
    (u e : Nat) :
    pairCount (setRSVPStatusFirst rs uid eid st) u e = pairCount rs u e := by
  induction rs with
  | nil => rfl
  | cons r rs ih =>
    unfold setRSVPStatusFirst
    by_cases h : pairMatch uid eid r = true
    · rw [if_pos h]
      unfold pairCount
      rw [List.filter_cons, List.filter_cons, pairMatch_set_status]
      cases pairMatch u e r <;> simp
    · rw [if_neg h]
      unfold pairCount at ih ⊢
      rw [List.filter_cons, List.filter_cons]
      cases pairMatch u e r <;> simp [ih]

theorem pairCount_append_single (rs : List RSVP) (x : RSVP) (u e : Nat) :
    pairCount (rs ++ [x]) u e = pairCount rs u e + (if pairMatch u e x then 1 else 0) := by
  unfold pairCount
  rw [List.filter_append, List.length_append]
  congr 1
  cases h : pairMatch u e x <;> simp [List.filter, h]

theorem pairCount_eq_zero_of_findRSVP_none {rs : List RSVP} {uid eid : Nat}
    (h : findRSVP rs uid eid = none) : pairCount rs uid eid = 0 := by
  unfold findRSVP at h
  rw [List.find?_eq_none] at h
  unfold pairCount
  exact List.length_eq_zero.mpr (List.filter_eq_nil_iff.mpr h)

theorem filter_setRSVPStatusFirst_of_find {rs : List RSVP} {uid eid : Nat} {st : String}
    {r0 : RSVP} (hf : findRSVP rs uid eid = some r0) (hc : pairCount rs uid eid ≤ 1) :
    (setRSVPStatusFirst rs uid eid st).filter (pairMatch uid eid) = [⟨uid, eid, st⟩] := by
  induction rs with
  | nil => simp [findRSVP] at hf
  | cons r rs ih =>
    by_cases h : pairMatch uid eid r = true
    · have hids : r.user_id = uid ∧ r.event_id = eid := by
        unfold pairMatch at h
        simpa using h
      have htail : rs.filter (pairMatch uid eid) = [] := by
        unfold pairCount at hc
        rw [List.filter_cons, if_pos h] at hc
        simp only [List.length_cons] at hc
        exact List.length_eq_zero.mp (by omega)
      unfold setRSVPStatusFirst
      rw [if_pos h]
      rw [List.filter_cons]
      have h2 : pairMatch uid eid { r with status := st } = true := h
      rw [if_pos h2, htail]
      obtain ⟨hu1, hu2⟩ := hids
      cases r with
      | mk ru re rst =>
        simp only at hu1 hu2
        subst hu1
        subst hu2
        rfl
    · have h2 : pairMatch uid eid r = false := by simpa using h
      have hf2 : findRSVP rs uid eid = some r0 := by
        unfold findRSVP at hf ⊢
        rw [List.find?_cons, h2] at hf
        exact hf
      have hc2 : pairCount rs uid eid ≤ 1 := by
        unfold pairCount at hc ⊢
        rw [List.filter_cons, h2] at hc
        simpa using hc
      unfold setRSVPStatusFirst
      rw [if_neg (by simp [h2])]
      rw [List.filter_cons, h2]
      simp only [Bool.false_eq_true, if_false]
      exact ih hf2 hc2

theorem filter_rsvp_upsert (s : Store) (uid eid : Nat) (g : Bool)
    (h : pairCount s.rsvps uid eid ≤ 1) :
    (rsvp_upsert s uid eid g).rsvps.filter (pairMatch uid eid)
      = [⟨uid, eid, if g then "going" else "cancelled"⟩] := by
  unfold rsvp_upsert
  cases hf : findRSVP s.rsvps uid eid with
  | none =>
    simp only []
    rw [List.filter_append]
    have h0 : s.rsvps.filter (pairMatch uid eid) = [] := by
      have := pairCount_eq_zero_of_findRSVP_none hf
      unfold pairCount at this
      exact List.length_eq_zero.mp this
    rw [h0]
    simp [pairMatch]
  | some r0 =>
    simp only []
    exact filter_setRSVPStatusFirst_of_find hf h

theorem rsvp_upsert_pairCount_other (s : Store) (uid eid : Nat) (g : Bool) (u e : Nat)
    (hne : ¬(u = uid ∧ e = eid)) :
    pairCount (rsvp_upsert s uid eid g).rsvps u e = pairCount s.rsvps u e := by
  unfold rsvp_upsert
  cases hf : findRSVP s.rsvps uid eid with
  | some r0 =>
    simp only []
    exact pairCount_setRSVPStatusFirst _ _ _ _ _ _
  | none =>
    simp only []
    rw [pairCount_append_single]
    have hx : pairMatch u e (⟨uid, eid, if g then "going" else "cancelled"⟩ : RSVP) = false := by
      unfold pairMatch
      simp only [beq_iff_eq]
      by_cases h1 : uid = u
      · by_cases h2 : eid = e
        · exact absurd ⟨h1.symm, h2.symm⟩ hne
        · simp [h1, h2]
      · simp [h1]
    rw [hx]
    simp

theorem rsvp_upsert_atMostOne (s : Store) (uid eid : Nat) (g : Bool)
    (h : atMostOnePerPair s.rsvps) : atMostOnePerPair (rsvp_upsert s uid eid g).rsvps := by
  intro u e
  by_cases hue : u = uid ∧ e = eid
  · obtain ⟨h1, h2⟩ := hue
    subst h1
    subst h2
    unfold pairCount
    rw [filter_rsvp_upsert s u e g (h u e)]
    simp
  · rw [rsvp_upsert_pairCount_other s uid eid g u e hue]
    exact h u e

theorem applyToggles_atMostOne (store : Store) (ops : List (Nat × Nat × Bool))
    (h : atMostOnePerPair store.rsvps) : atMostOnePerPair (applyToggles store ops).rsvps := by
  induction ops generalizing store with
  | nil => exact h
  | cons op ops ih =>
    exact ih (rsvp_upsert store op.1 op.2.1 op.2.2) (rsvp_upsert_atMostOne _ _ _ _ h)

/-- C2: no sequence of RSVP-toggle store updates ever creates a second row
for the same (user, event) pair (the at-most-one-row invariant is preserved),
and toggling to "going" then to "cancelled" leaves exactly one row for the
pair, with status "cancelled". -/
theorem rsvp_toggle_never_duplicates (store : Store) (ops : List (Nat × Nat × Bool))
    (uid eid : Nat) (h : atMostOnePerPair store.rsvps) :
    atMostOnePerPair (applyToggles store ops).rsvps ∧
    (rsvp_upsert (rsvp_upsert store uid eid true) uid eid false).rsvps.filter (pairMatch uid eid)
      = [⟨uid, eid, "cancelled"⟩] := by
  refine ⟨applyToggles_atMostOne store ops h, ?_⟩
  have h1 : pairCount (rsvp_upsert store uid eid true).rsvps uid eid ≤ 1 := by
    unfold pairCount
    rw [filter_rsvp_upsert store uid eid true (h uid eid)]
    simp
  have h2 := filter_rsvp_upsert (rsvp_upsert store uid eid true) uid eid false h1
  simpa using h2

theorem rsvp_toggle_never_duplicates_witness :
    atMostOnePerPair (applyToggles exStore [(1, 1, true)]).rsvps ∧
    (rsvp_upsert (rsvp_upsert exStore 1 1 true) 1 1 false).rsvps.filter (pairMatch 1 1)
      = [⟨1, 1, "cancelled"⟩] :=
  rsvp_toggle_never_duplicates exStore [(1, 1, true)] 1 1
    (by intro uid eid; simp [pairCount, exStore])

/-- C1(amended): for every authenticated user, existing event and intent bit
expressed equivalently by the two request encodings, the HTML and JSON
RSVP-toggle variants perform the same store update and the same
notification-relay call; but only the HTML variant performs the audit-sink
write — the JSON variant performs none — and they differ in response
encoding (redirect vs JSON body). -/
theorem rsvp_variants_agree_except_audit (store : Store) (sess : Session) (eid : Nat)
    (g : Bool) (a : Option String) (body : Option (List (String × PyVal)))
    (u : User) (ev : Event)
    (hu : get_current_user sess store = some u)
    (hev : findEvent store eid = some ev)
    (ha : formIsGoing a = g) (hb : jsonIsGoing body = g) :
    toggle_rsvp store sess eid a
      = .ok ⟨rsvp_upsert store u.id ev.id g,
             some ⟨u.email, ev.id, if g then "going" else "cancelled"⟩,
             some ⟨"RSVP_UPDATED", u.email, u.id, u.role, ev.id, ev.title,
                   if g then "going" else "cancelled"⟩,
             .redirectEventDetail ev.id⟩ ∧
    api_toggle_rsvp store sess eid body
      = .ok ⟨rsvp_upsert store u.id ev.id g,
             some ⟨u.email, ev.id, if g then "going" else "cancelled"⟩,
             none,
             .json "RSVP updated" ev.id (if g then "going" else "cancelled") 200⟩ := by
  have ht := sessionUserTruthy_of_get_current_user hu
  constructor
  · unfold toggle_rsvp
    rw [ht]
    simp [hev, hu, ha]
  · unfold api_toggle_rsvp
    rw [ht]
    simp [hev, hu, hb]

theorem rsvp_variants_agree_except_audit_witness :
    toggle_rsvp exStore exSess 1 (some "going")
      = .ok ⟨rsvp_upsert exStore exUser.id exEvent.id true,
             some ⟨exUser.email, exEvent.id, "going"⟩,
             some ⟨"RSVP_UPDATED", exUser.email, exUser.id, exUser.role,
                   exEvent.id, exEvent.title, "going"⟩,
             .redirectEventDetail exEvent.id⟩ ∧
    api_toggle_rsvp exStore exSess 1 (some [("going", PyVal.vBool true)])
      = .ok ⟨rsvp_upsert exStore exUser.id exEvent.id true,
             some ⟨exUser.email, exEvent.id, "going"⟩,
             none,
             .json "RSVP updated" exEvent.id "going" 200⟩ :=
  rsvp_variants_agree_except_audit exStore exSess 1 true (some "going")
    (some [("going", PyVal.vBool true)]) exUser exEvent
    (by decide) (by decide) (by decide) (by decide)

/-- C1(counterexample): at a concrete authenticated user, existing event and
matching "going" intent, the two variants produce the same store update and
the same notification-relay call, but the HTML variant performs an
audit-sink write while the JSON variant performs none — refuting "the same
audit-sink write". -/
theorem rsvp_variants_audit_write_differs :
    toggle_rsvp exStore exSess 1 (some "going")
      = .ok ⟨rsvp_upsert exStore 1 1 true,
             some ⟨"a@test.com", 1, "going"⟩,
             some ⟨"RSVP_UPDATED", "a@test.com", 1, "member", 1, "Club Meetup", "going"⟩,
             .redirectEventDetail 1⟩ ∧
    api_toggle_rsvp exStore exSess 1 (some [("going", PyVal.vBool true)])
      = .ok ⟨rsvp_upsert exStore 1 1 true,
             some ⟨"a@test.com", 1, "going"⟩,
             none,
             .json "RSVP updated" 1 "going" 200⟩ ∧
    some (⟨"RSVP_UPDATED", "a@test.com", 1, "member", 1, "Club Meetup", "going"⟩ : AuditWrite)
      ≠ (none : Option AuditWrite) := by
  refine ⟨rfl, rfl, ?_⟩
  simp

/-- C9: a POST to the JSON RSVP endpoint whose body is absent, not valid
JSON (both model as `none`), or lacks the "going" key is treated as
going = false: it succeeds with status 200 and sets (or creates) the user's
RSVP row for that event with status "cancelled". -/
theorem api_rsvp_defaults_to_cancelled (store : Store) (sess : Session) (eid : Nat)
    (body : Option (List (String × PyVal))) (u : User) (ev : Event)
    (hu : get_current_user sess store = some u)
    (hev : findEvent store eid = some ev)
    (hinv : pairCount store.rsvps u.id ev.id ≤ 1)
    (hbody : body = none ∨ ∃ m, body = some m ∧ m.find? (fun p => p.1 == "going") = none) :
    api_toggle_rsvp store sess eid body
      = .ok ⟨rsvp_upsert store u.id ev.id false,
             some ⟨u.email, ev.id, "cancelled"⟩, none,
             .json "RSVP updated" ev.id "cancelled" 200⟩ ∧
    (rsvp_upsert store u.id ev.id false).rsvps.filter (pairMatch u.id ev.id)
      = [⟨u.id, ev.id, "cancelled"⟩] := by
  have ht := sessionUserTruthy_of_get_current_user hu
  have hb : jsonIsGoing body = false := by
    rcases hbody with h | ⟨m, hm, hfind⟩
    · subst h
      rfl
    · subst hm
      unfold jsonIsGoing dictGet
      simp [hfind, pyTruthy]
  constructor
  · unfold api_toggle_rsvp
    rw [ht]
    simp [hev, hu, hb]
  · have h2 := filter_rsvp_upsert store u.id ev.id false hinv
    simpa using h2

theorem api_rsvp_defaults_to_cancelled_witness :
    api_toggle_rsvp exStore exSess 1 (some [("other", PyVal.vInt 3)])
      = .ok ⟨rsvp_upsert exStore exUser.id exEvent.id false,
             some ⟨exUser.email, exEvent.id, "cancelled"⟩, none,
             .json "RSVP updated" exEvent.id "cancelled" 200⟩ ∧
    (rsvp_upsert exStore exUser.id exEvent.id false).rsvps.filter
        (pairMatch exUser.id exEvent.id)
      = [⟨exUser.id, exEvent.id, "cancelled"⟩] :=
  api_rsvp_defaults_to_cancelled exStore exSess 1 (some [("other", PyVal.vInt 3)])
    exUser exEvent (by decide) (by decide) (by decide)
    (Or.inr ⟨[("other", PyVal.vInt 3)], rfl, by decide⟩)

/-- C8: a successful registration stores the email trimmed and lowercased
with role "member", and a second registration attempt whose email agrees
with the first up to letter case (after trimming) is rejected with the
"User already exists" response and creates no new user row. -/
theorem register_normalizes_and_rejects_duplicates
    (store : Store) (f1 l1 e1 p1 f2 l2 e2 p2 : String)
    (genHash : String → String) (id1 id2 : Nat) (store1 : Store)
    (hfirst : register store f1 l1 e1 p1 genHash id1 = (.redirectLogin, store1))
    (hsame : pyLower (pyStrip e2) = pyLower (pyStrip e1)) :
    store1.users = store.users
      ++ [⟨id1, pyStrip f1, pyStrip l1, pyLower (pyStrip e1), genHash p1, "member", none⟩] ∧
    register store1 f2 l2 e2 p2 genHash id2 = (.userAlreadyExists, store1) := by
  unfold register at hfirst
  dsimp only at hfirst
  cases hf : store.users.find? (fun u => u.email == pyLower (pyStrip e1)) with
  | some u =>
    rw [hf] at hfirst
    simp at hfirst
  | none =>
    rw [hf] at hfirst
    simp only [Prod.mk.injEq] at hfirst
    obtain ⟨-, h2⟩ := hfirst
    subst h2
    refine ⟨rfl, ?_⟩
    unfold register
    rw [hsame]
    dsimp only
    rw [List.find?_append, hf]
    simp

theorem register_normalizes_witness :
    (⟨[⟨1, "Alice", "W", "alice@test.com", "pw1", "member", none⟩], [], []⟩ : Store).users
      = ([] : List User) ++ [⟨1, "Alice", "W", "alice@test.com", "pw1", "member", none⟩] ∧
    register ⟨[⟨1, "Alice", "W", "alice@test.com", "pw1", "member", none⟩], [], []⟩
        "B" "C" "alice@TEST.com " "pw2" (fun p => p) 2
      = (.userAlreadyExists,
         ⟨[⟨1, "Alice", "W", "alice@test.com", "pw1", "member", none⟩], [], []⟩) :=
  register_normalizes_and_rejects_duplicates ⟨[], [], []⟩ " Alice " "W" " Alice@Test.com"
    "pw1" "B" "C" "alice@TEST.com " "pw2" (fun p => p) 1 2
    ⟨[⟨1, "Alice", "W", "alice@test.com", "pw1", "member", none⟩], [], []⟩
    (by decide) (by decide)

/-! Round-trip of the emitted timestamp text, and sortedness of the
events-listing endpoint. -/

theorem digitVal_digitChar (k : Nat) (h : k ≤ 9) : digitVal (digitChar k) = some k := by
  interval_cases k <;> rfl

theorem daysInMonth_le (y m : Nat) : daysInMonth y m ≤ 31 := by
  unfold daysInMonth
  split_ifs <;> omega

theorem readNat2_pad2 (n : Nat) (h : n ≤ 99) :
    readNat2 (digitChar (n / 10 % 10)) (digitChar (n % 10)) = some n := by
  unfold readNat2
  rw [digitVal_digitChar _ (by omega), digitVal_digitChar _ (by omega)]
  simp only [Option.some_bind]
  congr 1
  omega

theorem readNat4_pad4 (n : Nat) (h : n ≤ 9999) :
    readNat4 (digitChar (n / 1000 % 10)) (digitChar (n / 100 % 10))
      (digitChar (n / 10 % 10)) (digitChar (n % 10)) = some n := by
  unfold readNat4
  rw [digitVal_digitChar _ (by omega), digitVal_digitChar _ (by omega),
      digitVal_digitChar _ (by omega), digitVal_digitChar _ (by omega)]
  simp only [Option.some_bind]
  congr 1
  omega

theorem fromisoformat_isoformat (d : DateTime) (h : validDT d) :
    fromisoformat (isoformat d) = some d := by
  obtain ⟨h1, h2, h3, h4, h5, h6, h7, h8, h9⟩ := h
  show fromisoChars (pad4Chars d.year ++ ['-'] ++ pad2Chars d.month ++ ['-'] ++ pad2Chars d.day
    ++ ['T'] ++ pad2Chars d.hour ++ [':'] ++ pad2Chars d.minute ++ [':'] ++ pad2Chars d.second)
    = some d
  unfold pad4Chars pad2Chars
  simp only [List.cons_append, List.nil_append]
  have hday : d.day ≤ 31 := le_trans h6 (daysInMonth_le d.year d.month)
  simp only [fromisoChars]
  rw [readNat4_pad4 _ (by omega), readNat2_pad2 _ (by omega), readNat2_pad2 _ (by omega)]
  simp only [Option.some_bind]
  simp only [and_self, if_true]
  simp only [timePart, List.isEmpty_cons, Bool.false_eq_true, if_false]
  simp only [parseTimeChars]
  rw [if_pos (show (True ∧ True ∧ fracOk [] = true) from ⟨trivial, trivial, rfl⟩)]
  rw [readNat2_pad2 _ (by omega), readNat2_pad2 _ (by omega), readNat2_pad2 _ (by omega)]
  simp only [Option.some_bind]
  have hcond : 1 ≤ d.year ∧ d.year ≤ 9999 ∧ 1 ≤ d.month ∧ d.month ≤ 12 ∧ 1 ≤ d.day ∧
      d.day ≤ daysInMonth d.year d.month ∧ d.hour ≤ 23 ∧ d.minute ≤ 59 ∧ d.second ≤ 59 :=
    ⟨h1, h2, h3, h4, h5, h6, h7, h8, h9⟩
  simp [mkValidDT, hcond]

/-! Concrete checks of the parser models against CPython behaviour on the
boundary inputs: `strptime` accepts non-padded fields, both parsers reject
calendar-invalid days, and `fromisoformat` accepts date-only, arbitrary
single-character separator and fractional-second inputs. -/

theorem parse_dt_local_accepts_unpadded :
    parse_dt_local "2026-1-2T9:5" = some ⟨2026, 1, 2, 9, 5, 0⟩ := by decide

theorem parse_dt_local_accepts_padded :
    parse_dt_local "2026-01-02T10:00" = some ⟨2026, 1, 2, 10, 0, 0⟩ := by decide

theorem parse_dt_local_rejects_invalid_day :
    parse_dt_local "2026-02-31T10:00" = none := by decide

theorem fromisoformat_accepts_date_only :
    fromisoformat "2026-01-02" = some ⟨2026, 1, 2, 0, 0, 0⟩ := by decide

theorem fromisoformat_accepts_space_separator :
    fromisoformat "2026-01-02 10:30:05" = some ⟨2026, 1, 2, 10, 30, 5⟩ := by decide

theorem fromisoformat_accepts_fraction :
    fromisoformat "2026-01-02T10:30:05.123" = some ⟨2026, 1, 2, 10, 30, 5⟩ := by decide

theorem fromisoformat_rejects_invalid_day :
    fromisoformat "2026-02-31T10:00" = none := by decide

theorem dtLe_trans (a b c : DateTime) :
    dtLe a b = true → dtLe b c = true → dtLe a c = true := by
  unfold dtLe
  simp only [decide_eq_true_eq]
  omega

theorem dtLe_total (a b : DateTime) : (dtLe a b || dtLe b a) = true := by
  unfold dtLe
  rcases Nat.le_total (dtKey a) (dtKey b) with h | h <;> simp [h]

theorem order_by_start_time_perm (l : List Event) : (order_by_start_time l).Perm l :=
  List.mergeSort_perm l _

theorem order_by_start_time_sorted (l : List Event) :
    (order_by_start_time l).Pairwise (fun a b => dtLe a.start_time b.start_time = true) :=
  @List.sorted_mergeSort Event (fun a b => dtLe a.start_time b.start_time)
    (fun a b c => dtLe_trans a.start_time b.start_time c.start_time)
    (fun a b => dtLe_total a.start_time b.start_time) l

theorem order_by_start_time_mem {e : Event} {l : List Event}
    (h : e ∈ order_by_start_time l) : e ∈ l := by
  unfold order_by_start_time at h
  exact List.mem_mergeSort.mp h

/-- C7: `api_events` returns, for every store, `{"events": [...]}` where the
list is a permutation of the event rows sorted by start time ascending, each
entry carries exactly the six fields of `ApiEventEntry`, and (for stores of
representable datetimes) both emitted timestamps parse back with
`fromisoformat` to the exact datetime that produced them. -/
theorem api_events_sorted_and_roundtrippable (store : Store)
    (hvalid : ∀ e ∈ store.events, validDT e.start_time ∧ validDT e.end_time) :
    ∃ es : List Event,
      es.Perm store.events ∧
      es.Pairwise (fun a b => dtLe a.start_time b.start_time = true) ∧
      api_events store = ⟨es.map apiEventEntryOf⟩ ∧
      ∀ entry ∈ (api_events store).events,
        (∃ d1, fromisoformat entry.start_time = some d1 ∧ isoformat d1 = entry.start_time) ∧
        (∃ d2, fromisoformat entry.end_time = some d2 ∧ isoformat d2 = entry.end_time) := by
  refine ⟨order_by_start_time store.events, ?_, ?_, rfl, ?_⟩
  · exact order_by_start_time_perm store.events
  · exact order_by_start_time_sorted store.events
  · intro entry hm
    simp only [api_events, List.mem_map] at hm
    obtain ⟨e, he, hentry⟩ := hm
    have he2 : e ∈ store.events := order_by_start_time_mem he
    obtain ⟨hv1, hv2⟩ := hvalid e he2
    subst hentry
    exact ⟨⟨e.start_time, fromisoformat_isoformat _ hv1, rfl⟩,
           ⟨e.end_time, fromisoformat_isoformat _ hv2, rfl⟩⟩

theorem api_events_sorted_witness :
    ∃ es : List Event,
      es.Perm exStore7.events ∧
      es.Pairwise (fun a b => dtLe a.start_time b.start_time = true) ∧
      api_events exStore7 = ⟨es.map apiEventEntryOf⟩ ∧
      ∀ entry ∈ (api_events exStore7).events,
        (∃ d1, fromisoformat entry.start_time = some d1 ∧ isoformat d1 = entry.start_time) ∧
        (∃ d2, fromisoformat entry.end_time = some d2 ∧ isoformat d2 = entry.end_time) :=
  api_events_sorted_and_roundtrippable exStore7 (by decide)

end BUSDU
